import Mathlib

/-!
Verification of the manufacturing-website backend (`src/main.py`,
`src/schemas.py`) against its natural-language specification.

The backend is embedded shallowly: the Pydantic models become Lean
structures, and the two handlers `list_capabilities` / `create_inquiry`
become pure functions over an explicit store state.  The `database`
module (`db`, `get_documents`, `create_document`) is not part of the
provided sources; its behaviour is modelled from the spec as an explicit
environment: an import that may fail, a handle that may be `None`, a
query that may throw, and per-document insertion that may throw.
-/

set_option autoImplicit false

namespace Backend

/-- `Capability` Pydantic model from `src/schemas.py`:
`name` and `summary` are required strings, `icon` an optional string. -/
structure Capability where
  name : String
  summary : String
  icon : Option String
deriving Repr, DecidableEq

/-- `Inquiry` Pydantic model from `src/schemas.py`. -/
structure Inquiry where
  name : String
  email : String
  phone : Option String
  company : Option String
  message : String
  service : Option String
deriving Repr, DecidableEq

/-- Errors escaping a handler: either an uncaught Python exception from the
store (the message of the exception), or a raised `HTTPException` with a
status code and a detail string. -/
inductive ApiError where
  | uncaught : String → ApiError
  | httpException : Nat → String → ApiError
deriving Repr, DecidableEq

/-- Modelled from the spec: the state and failure modes of the external
`database` module used by `list_capabilities`.  `importOk` is whether
`from database import ...` succeeds; `dbPresent` is whether the handle
`db` is not `None`; `capabilities` is the current content of the
`"capability"` collection in insertion order; `queryFails` is whether
`get_documents("capability")` throws; `insertFails d` is whether
`create_document("capability", d)` throws for document `d`. -/
structure StoreEnv where
  importOk : Bool
  dbPresent : Bool
  capabilities : List Capability
  queryFails : Bool
  insertFails : Capability → Bool

/-- The static fallback list returned at `src/main.py` lines 102-106 when the
`database` module cannot be imported. -/
def fallbackOnImportError : List Capability :=
  [ ⟨"CNC Machining", "Precision milling and turning for metals and plastics", some "settings"⟩,
    ⟨"Sheet Metal Fabrication", "Laser cutting, bending, and assembly for prototypes to production", some "square"⟩,
    ⟨"Welding", "Certified MIG/TIG welding for structural and aesthetic parts", some "hammer"⟩ ]

/-- The static fallback list returned at `src/main.py` lines 109-113 when the
handle `db` is `None` (textually identical to `fallbackOnImportError`). -/
def fallbackOnDbNone : List Capability :=
  [ ⟨"CNC Machining", "Precision milling and turning for metals and plastics", some "settings"⟩,
    ⟨"Sheet Metal Fabrication", "Laser cutting, bending, and assembly for prototypes to production", some "square"⟩,
    ⟨"Welding", "Certified MIG/TIG welding for structural and aesthetic parts", some "hammer"⟩ ]

/-- The four seed documents of `src/main.py` lines 121-126 (dicts in the
source; their `Capability`-shaped content here). -/
def seedDefaults : List Capability :=
  [ ⟨"CNC Machining", "Precision milling and turning for metals and plastics", some "settings"⟩,
    ⟨"Sheet Metal Fabrication", "Laser cutting, bending, and assembly for prototypes to production", some "square"⟩,
    ⟨"Welding", "Certified MIG/TIG welding for structural and aesthetic parts", some "hammer"⟩,
    ⟨"Powder Coating", "Durable finishes with a wide range of colors and textures", some "paintbrush"⟩ ]

/-- `list_capabilities` from `src/main.py` lines 96-135.  Returns the
handler's outcome (result or uncaught exception) together with the store
state after the call.  The `try: from database import ...` of lines 98-100
is the `importOk` test; `if db is None` (line 108) is the `dbPresent` test;
`get_documents("capability")` (line 116) is unprotected, so its failure is
an uncaught `ApiError.uncaught`; the seeding loop (lines 127-131)
appends each default whose insert does not throw, swallowing failures;
the re-query (line 132) is likewise unprotected. -/
def list_capabilities (env : StoreEnv) : Except ApiError (List Capability) × StoreEnv :=
  if !env.importOk then
    (Except.ok fallbackOnImportError, env)
  else if !env.dbPresent then
    (Except.ok fallbackOnDbNone, env)
  else if env.queryFails then
    (Except.error (ApiError.uncaught "get_documents"), env)
  else
    let items := env.capabilities
    if items.length = 0 then
      let newCaps := seedDefaults.foldl
        (fun cs d => if env.insertFails d then cs else cs ++ [d]) env.capabilities
      let env2 : StoreEnv := { env with capabilities := newCaps }
      if env2.queryFails then
        (Except.error (ApiError.uncaught "get_documents"), env2)
      else
        (Except.ok env2.capabilities, env2)
    else
      (Except.ok items, env)

/-- `InquiryResponse` Pydantic model from `src/main.py` lines 139-141. -/
structure InquiryResponse where
  id : String
  message : String
deriving Repr, DecidableEq

/-- Modelled from the spec: the state and failure modes of the external
`database` module as used by `create_inquiry`.  `inquiries` is the
current content of the `"inquiry"` collection in insertion order;
`insertError` is `some msg` when `create_document("inquiry", ...)` throws
an exception whose string form is `msg`.  Per the spec, a successful
insert returns the newly assigned identifier; identifiers are modelled as
the (stringified) index of the record in the collection. -/
structure InqEnv where
  importOk : Bool
  dbPresent : Bool
  inquiries : List Inquiry
  insertError : Option String
deriving Repr, DecidableEq

/-- Python string slicing `s[:n]`: the first `n` characters of `s`. -/
def pySlice (s : String) (n : Nat) : String :=
  ⟨s.data.take n⟩

/-- `create_inquiry` from `src/main.py` lines 145-158.  A failed import
(lines 146-149) raises HTTP 503 "Database not configured"; a `None`
handle (lines 151-152) raises HTTP 503 "Database not available"; a
throwing insert (lines 157-158) raises HTTP 500 with the exception
message truncated by `str(e)[:120]`; otherwise the payload is stored and
the new id is returned with the fixed confirmation string (line 156). -/
def create_inquiry (env : InqEnv) (payload : Inquiry) :
    Except ApiError InquiryResponse × InqEnv :=
  if !env.importOk then
    (Except.error (ApiError.httpException 503 "Database not configured"), env)
  else if !env.dbPresent then
    (Except.error (ApiError.httpException 503 "Database not available"), env)
  else
    match env.insertError with
    | some msg =>
        (Except.error (ApiError.httpException 500
          ("Failed to save inquiry: " ++ pySlice msg 120)), env)
    | none =>
        (Except.ok
          ⟨toString env.inquiries.length,
           "Inquiry received. Our team will contact you shortly."⟩,
         { env with inquiries := env.inquiries ++ [payload] })

/-! A model of Python dictionaries for `serialize_doc`. -/

/-- A Python value as far as `serialize_doc` needs one: strings, integers,
and MongoDB object ids (whose `str()` form is modelled by `pyStr`). -/
inductive PyVal where
  | vstr : String → PyVal
  | vint : Int → PyVal
  | void : Nat → PyVal
deriving Repr, DecidableEq

/-- Python `str()` on a `PyVal`. -/
def pyStr : PyVal → String
  | PyVal.vstr s => s
  | PyVal.vint i => toString i
  | PyVal.void n => toString n

/-- A Python dict: keys in insertion order, each key occurring once. -/
abbrev PyDict : Type := List (String × PyVal)

/-- `d[k]` lookup returning `none` when the key is absent. -/
def dget : PyDict → String → Option PyVal
  | [], _ => none
  | (k', v) :: t, k => if k' = k then some v else dget t k

/-- `d.pop(k)`: the dict without key `k`. -/
def dpop (d : PyDict) (k : String) : PyDict :=
  d.filter (fun p => p.1 != k)

/-- `d[k] = v`: replace the value of the key in place when it is present
(dict keys are unique, so at most one entry matches), else append the new
pair at the end (Python dicts keep insertion order). -/
def dset : PyDict → String → PyVal → PyDict
  | [], k, v => [(k, v)]
  | (k', w) :: t, k, v => if k' = k then (k, v) :: t else (k', w) :: dset t k v

/-- An argument to `serialize_doc`: a dict, or any non-dict value. -/
inductive PyObj where
  | dict : PyDict → PyObj
  | other : PyVal → PyObj
deriving DecidableEq

/-- The dict branch of `serialize_doc` (`src/main.py` lines 24-27):
copy the dict, and when `"_id"` is present pop it and assign
`d["id"] = str(popped value)`. -/
def serialize_dict (d : PyDict) : PyDict :=
  match dget d "_id" with
  | some v => dset (dpop d "_id") "id" (PyVal.vstr (pyStr v))
  | none => d

/-- `serialize_doc` from `src/main.py` lines 21-27: non-dict inputs are
returned unchanged (lines 22-23). -/
def serialize_doc : PyObj → PyObj
  | PyObj.dict d => PyObj.dict (serialize_dict d)
  | PyObj.other v => PyObj.other v

/-! The `/schema` endpoint. -/

/-- One declared field of a Pydantic model: its name and whether the
declaration gives it a default value (`Field(..., ...)` has none;
`Field(None, ...)` and `Field(True, ...)` do). -/
structure PydField where
  fname : String
  hasDefault : Bool
deriving Repr, DecidableEq

/-- The JSON-Schema content the claims are about: the property names and
the required-property names. -/
structure JsonSchema where
  properties : List String
  required : List String
deriving Repr, DecidableEq

/-- Modelled from the spec: Pydantic `model_json_schema()` (an external
library call in `src/main.py` lines 87-90) lists every declared field
under `properties` and exactly the fields without a default under
`required`. -/
def model_json_schema (fields : List PydField) : JsonSchema :=
  ⟨fields.map (fun f => f.fname),
   (fields.filter (fun f => !f.hasDefault)).map (fun f => f.fname)⟩

/-- Field declarations of `User` (`src/schemas.py` lines 19-28). -/
def User.fields : List PydField :=
  [⟨"name", false⟩, ⟨"email", false⟩, ⟨"address", false⟩,
   ⟨"age", true⟩, ⟨"is_active", true⟩]

/-- Field declarations of `Product` (`src/schemas.py` lines 30-39). -/
def Product.fields : List PydField :=
  [⟨"title", false⟩, ⟨"description", true⟩, ⟨"price", false⟩,
   ⟨"category", false⟩, ⟨"in_stock", true⟩]

/-- Field declarations of `Capability` (`src/schemas.py` lines 41-47). -/
def Capability.fields : List PydField :=
  [⟨"name", false⟩, ⟨"summary", false⟩, ⟨"icon", true⟩]

/-- Field declarations of `Inquiry` (`src/schemas.py` lines 49-58). -/
def Inquiry.fields : List PydField :=
  [⟨"name", false⟩, ⟨"email", false⟩, ⟨"phone", true⟩,
   ⟨"company", true⟩, ⟨"message", false⟩, ⟨"service", true⟩]

/-- `get_schema` from `src/main.py` lines 85-91: the four model schemas
keyed by model name. -/
def get_schema : List (String × JsonSchema) :=
  [("user", model_json_schema User.fields),
   ("product", model_json_schema Product.fields),
   ("capability", model_json_schema Capability.fields),
   ("inquiry", model_json_schema Inquiry.fields)]

/-! Helper lemmas about the dict operations and the seeding fold. -/

theorem foldl_insert_filter (p : Capability → Bool) (l : List Capability) :
    ∀ cs : List Capability,
      l.foldl (fun cs d => if p d then cs else cs ++ [d]) cs
        = cs ++ l.filter (fun d => !p d) := by
  induction l with
  | nil => intro cs; simp
  | cons hd tl ih =>
      intro cs
      by_cases h : p hd
      · simp [List.foldl_cons, List.filter_cons, h, ih]
      · simp [List.foldl_cons, List.filter_cons, h, ih, List.append_assoc]

theorem dget_dpop_self (d : PyDict) (k : String) : dget (dpop d k) k = none := by
  induction d with
  | nil => rfl
  | cons hd tl ih =>
      obtain ⟨a, b⟩ := hd
      by_cases h : a = k <;> simp [dpop, List.filter_cons, h, dget] at ih ⊢ <;>
        simpa [dpop] using ih

theorem dget_dpop_ne (d : PyDict) (k k' : String) (h : k' ≠ k) :
    dget (dpop d k) k' = dget d k' := by
  induction d with
  | nil => rfl
  | cons hd tl ih =>
      obtain ⟨a, b⟩ := hd
      by_cases h1 : a = k
      · subst h1
        have h2 : a ≠ k' := fun hh => h hh.symm
        simp [dpop, List.filter_cons, dget, h2]
        simpa [dpop] using ih
      · by_cases h2 : a = k'
        · subst h2
          simp [dpop, List.filter_cons, dget, h1]
        · simp [dpop, List.filter_cons, dget, h1, h2]
          simpa [dpop] using ih

theorem dget_dset_self (d : PyDict) (k : String) (v : PyVal) :
    dget (dset d k v) k = some v := by
  induction d with
  | nil => simp [dset, dget]
  | cons hd tl ih =>
      obtain ⟨a, b⟩ := hd
      by_cases h1 : a = k <;> simp [dset, dget, h1, ih]

theorem dget_dset_ne (d : PyDict) (k k' : String) (v : PyVal) (h : k' ≠ k) :
    dget (dset d k v) k' = dget d k' := by
  induction d with
  | nil =>
      have h2 : k ≠ k' := fun hh => h hh.symm
      simp [dset, dget, h2]
  | cons hd tl ih =>
      obtain ⟨a, b⟩ := hd
      by_cases h1 : a = k
      · subst h1
        have h2 : a ≠ k' := fun hh => h hh.symm
        simp [dset, dget, h2]
      · by_cases h2 : a = k' <;> simp [dset, dget, h, h1, h2, ih]

/-! Claims about `list_capabilities`. -/

/-- C1 counterexample: with a reachable store whose `"capability"` collection
is empty and whose every insert throws, `list_capabilities` returns the
empty list, so the caller does not always receive at least one
`Capability`. -/
theorem list_capabilities_empty_when_all_inserts_fail :
    (list_capabilities ⟨true, true, [], false, fun _ => true⟩).1 =
      Except.ok ([] : List Capability) := rfl

/-- C1 (amended): the sequence returned by `list_capabilities` is non-empty
whenever the store module is missing, or the handle is null, or the query
succeeds and either the store already holds a record or at least one of
the four seed inserts succeeds.  (When the store is reachable, empty, and
every seed insert fails, the empty list is returned.) -/
theorem list_capabilities_nonempty (env : StoreEnv)
    (h : env.importOk = false ∨ env.dbPresent = false ∨
      (env.queryFails = false ∧
        (env.capabilities ≠ [] ∨ ∃ d ∈ seedDefaults, env.insertFails d = false))) :
    ∃ l, (list_capabilities env).1 = Except.ok l ∧ l ≠ [] := by
  obtain ⟨io, dbp, caps, qf, inf⟩ := env
  rcases h with h | h | ⟨hq, hc⟩
  · subst h
    exact ⟨fallbackOnImportError, rfl, by simp [fallbackOnImportError]⟩
  · subst h
    cases io
    · exact ⟨fallbackOnImportError, rfl, by simp [fallbackOnImportError]⟩
    · exact ⟨fallbackOnDbNone, rfl, by simp [fallbackOnDbNone]⟩
  · subst hq
    cases io with
    | false => exact ⟨fallbackOnImportError, rfl, by simp [fallbackOnImportError]⟩
    | true =>
        cases dbp with
        | false => exact ⟨fallbackOnDbNone, rfl, by simp [fallbackOnDbNone]⟩
        | true =>
            by_cases hcaps : caps = []
            · subst hcaps
              rcases hc with hne | ⟨d, hd, hdf⟩
              · exact absurd rfl hne
              · refine ⟨seedDefaults.filter (fun d => !inf d), ?_, ?_⟩
                · simp [list_capabilities, foldl_insert_filter]
                · exact List.ne_nil_of_mem
                    (List.mem_filter.mpr ⟨hd, by simpa using hdf⟩)
            · refine ⟨caps, ?_, hcaps⟩
              simp [list_capabilities, List.length_eq_zero, hcaps]

/-- C1 witness: with the store module missing the returned list is
non-empty. -/
theorem list_capabilities_nonempty_witness :
    ∃ l, (list_capabilities ⟨false, true, [], false, fun _ => true⟩).1 =
        Except.ok l ∧ l ≠ [] :=
  list_capabilities_nonempty _ (Or.inl rfl)

/-- C2: whenever the store module cannot be loaded or the handle is null,
`list_capabilities` returns exactly the 3-item static default list with
the literal name/summary/icon values, surfaces no error, and leaves the
store untouched. -/
theorem list_capabilities_static_fallback (env : StoreEnv)
    (h : env.importOk = false ∨ env.dbPresent = false) :
    list_capabilities env =
      (Except.ok
        [⟨"CNC Machining", "Precision milling and turning for metals and plastics", some "settings"⟩,
         ⟨"Sheet Metal Fabrication", "Laser cutting, bending, and assembly for prototypes to production", some "square"⟩,
         ⟨"Welding", "Certified MIG/TIG welding for structural and aesthetic parts", some "hammer"⟩],
       env) := by
  obtain ⟨io, dbp, caps, qf, inf⟩ := env
  rcases h with h | h
  · subst h; rfl
  · subst h; cases io <;> rfl

/-- C2 witness: the fallback at a concrete unreachable store. -/
theorem list_capabilities_static_fallback_witness :
    list_capabilities ⟨false, true, [], false, fun _ => true⟩ =
      (Except.ok
        [⟨"CNC Machining", "Precision milling and turning for metals and plastics", some "settings"⟩,
         ⟨"Sheet Metal Fabrication", "Laser cutting, bending, and assembly for prototypes to production", some "square"⟩,
         ⟨"Welding", "Certified MIG/TIG welding for structural and aesthetic parts", some "hammer"⟩],
       ⟨false, true, [], false, fun _ => true⟩) :=
  list_capabilities_static_fallback _ (Or.inl rfl)

/-- C3 counterexample: when `get_documents` throws, `list_capabilities`
propagates the error instead of degrading to the static default list:
the query at `src/main.py` line 116 is outside any `try`. -/
theorem list_capabilities_query_error_propagates :
    (list_capabilities ⟨true, true, [], true, fun _ => true⟩).1 =
      Except.error (ApiError.uncaught "get_documents") := rfl

/-- C3 (amended): a missing store module or a null handle degrades to the
static default list with no error, but a throwing `get_documents` query
propagates as an uncaught error. -/
theorem list_capabilities_degrade_policy (env : StoreEnv) :
    ((env.importOk = false ∨ env.dbPresent = false) →
      (list_capabilities env).1 = Except.ok fallbackOnImportError) ∧
    (env.importOk = true → env.dbPresent = true → env.queryFails = true →
      (list_capabilities env).1 = Except.error (ApiError.uncaught "get_documents")) := by
  obtain ⟨io, dbp, caps, qf, inf⟩ := env
  constructor
  · rintro (h | h)
    · subst h; rfl
    · subst h; cases io <;> rfl
  · rintro h1 h2 h3
    subst h1; subst h2; subst h3; rfl

/-- C3 witness: both halves of the degrade policy at concrete stores. -/
theorem list_capabilities_degrade_policy_witness :
    (list_capabilities ⟨false, false, [], false, fun _ => true⟩).1 =
        Except.ok fallbackOnImportError ∧
    (list_capabilities ⟨true, true, [], true, fun _ => true⟩).1 =
        Except.error (ApiError.uncaught "get_documents") :=
  ⟨(list_capabilities_degrade_policy _).1 (Or.inl rfl),
   (list_capabilities_degrade_policy _).2 rfl rfl rfl⟩

/-- C4: with a valid handle and at least one stored capability record,
`list_capabilities` performs no insert (the store state is unchanged) and
returns exactly the store's records in their stored order. -/
theorem list_capabilities_reads_existing (env : StoreEnv)
    (h1 : env.importOk = true) (h2 : env.dbPresent = true)
    (h3 : env.queryFails = false) (h4 : env.capabilities ≠ []) :
    list_capabilities env = (Except.ok env.capabilities, env) := by
  obtain ⟨io, dbp, caps, qf, inf⟩ := env
  subst h1; subst h2; subst h3
  simp [list_capabilities, List.length_eq_zero, h4]

/-- C4 witness: a store holding one record is returned as-is, unchanged. -/
theorem list_capabilities_reads_existing_witness :
    list_capabilities ⟨true, true, [⟨"Anodizing", "Protective finish", none⟩], false, fun _ => true⟩ =
      (Except.ok [⟨"Anodizing", "Protective finish", none⟩],
       ⟨true, true, [⟨"Anodizing", "Protective finish", none⟩], false, fun _ => true⟩) :=
  list_capabilities_reads_existing _ rfl rfl rfl (by simp)

/-- C5: with a valid handle and an empty capability collection,
`list_capabilities` inserts the four default records one at a time in
order, swallowing per-item failures without rollback, re-queries, and
returns exactly the store's post-seed contents — the successfully
inserted defaults in order, possibly none. -/
theorem list_capabilities_seeds_empty_store (env : StoreEnv)
    (h1 : env.importOk = true) (h2 : env.dbPresent = true)
    (h3 : env.queryFails = false) (h4 : env.capabilities = []) :
    list_capabilities env =
      (Except.ok (seedDefaults.filter (fun d => !env.insertFails d)),
       { env with capabilities := seedDefaults.filter (fun d => !env.insertFails d) }) := by
  obtain ⟨io, dbp, caps, qf, inf⟩ := env
  subst h1; subst h2; subst h3; subst h4
  simp [list_capabilities, foldl_insert_filter]

/-- C5 witness: seeding a concrete empty store where the `Welding` insert
fails stores and returns the other three defaults, in order. -/
theorem list_capabilities_seeds_empty_store_witness :
    list_capabilities ⟨true, true, [], false, fun d => d.name == "Welding"⟩ =
      (Except.ok
        [⟨"CNC Machining", "Precision milling and turning for metals and plastics", some "settings"⟩,
         ⟨"Sheet Metal Fabrication", "Laser cutting, bending, and assembly for prototypes to production", some "square"⟩,
         ⟨"Powder Coating", "Durable finishes with a wide range of colors and textures", some "paintbrush"⟩],
       ⟨true, true,
        [⟨"CNC Machining", "Precision milling and turning for metals and plastics", some "settings"⟩,
         ⟨"Sheet Metal Fabrication", "Laser cutting, bending, and assembly for prototypes to production", some "square"⟩,
         ⟨"Powder Coating", "Durable finishes with a wide range of colors and textures", some "paintbrush"⟩],
        false, fun d => d.name == "Welding"⟩) :=
  list_capabilities_seeds_empty_store _ rfl rfl rfl rfl

/-! Claims about `create_inquiry`, the schema endpoint, and `serialize_doc`. -/

/-- C6: for every payload, if the store module cannot be loaded or the
handle is null, `create_inquiry` raises an HTTP 503 service-unavailable
error, performs no store mutation, and produces no fallback result. -/
theorem create_inquiry_store_unavailable (env : InqEnv) (payload : Inquiry)
    (h : env.importOk = false ∨ env.dbPresent = false) :
    (∃ d, (create_inquiry env payload).1 =
        Except.error (ApiError.httpException 503 d)) ∧
    (create_inquiry env payload).2 = env := by
  obtain ⟨io, dbp, inqs, ie⟩ := env
  rcases h with h | h
  · subst h
    exact ⟨⟨"Database not configured", rfl⟩, rfl⟩
  · subst h
    cases io
    · exact ⟨⟨"Database not configured", rfl⟩, rfl⟩
    · exact ⟨⟨"Database not available", rfl⟩, rfl⟩

/-- C6 witness: a concrete submission against a missing store module. -/
theorem create_inquiry_store_unavailable_witness :
    (∃ d, (create_inquiry ⟨false, true, [], none⟩
        ⟨"Jo", "jo@example.com", none, none, "Need a quote", none⟩).1 =
        Except.error (ApiError.httpException 503 d)) ∧
    (create_inquiry ⟨false, true, [], none⟩
        ⟨"Jo", "jo@example.com", none, none, "Need a quote", none⟩).2 =
      ⟨false, true, [], none⟩ :=
  create_inquiry_store_unavailable _ _ (Or.inl rfl)

/-- C7: for every payload, if the insert throws, `create_inquiry` raises an
HTTP 500 internal error whose detail contains the underlying message
truncated to at most 120 characters, and the store is not mutated. -/
theorem create_inquiry_insert_failure (env : InqEnv) (payload : Inquiry)
    (msg : String)
    (h1 : env.importOk = true) (h2 : env.dbPresent = true)
    (h3 : env.insertError = some msg) :
    (create_inquiry env payload).1 =
      Except.error (ApiError.httpException 500
        ("Failed to save inquiry: " ++ pySlice msg 120)) ∧
    (pySlice msg 120).length ≤ 120 ∧
    (create_inquiry env payload).2 = env := by
  obtain ⟨io, dbp, inqs, ie⟩ := env
  subst h1; subst h2; subst h3
  refine ⟨rfl, ?_, rfl⟩
  show (msg.data.take 120).length ≤ 120
  exact List.length_take_le ..

/-- C7 witness: a concrete throwing insert yields the truncated 500 detail. -/
theorem create_inquiry_insert_failure_witness :
    (create_inquiry ⟨true, true, [], some "duplicate key"⟩
        ⟨"Jo", "jo@example.com", none, none, "Need a quote", none⟩).1 =
      Except.error (ApiError.httpException 500
        ("Failed to save inquiry: " ++ pySlice "duplicate key" 120)) ∧
    (pySlice "duplicate key" 120).length ≤ 120 ∧
    (create_inquiry ⟨true, true, [], some "duplicate key"⟩
        ⟨"Jo", "jo@example.com", none, none, "Need a quote", none⟩).2 =
      ⟨true, true, [], some "duplicate key"⟩ :=
  create_inquiry_insert_failure _ _ "duplicate key" rfl rfl rfl

/-- C8: for every payload with a reachable store and a succeeding insert,
`create_inquiry` returns the newly assigned identifier together with the
fixed confirmation string, and that identifier indexes the stored record
holding the submitted fields. -/
theorem create_inquiry_success (env : InqEnv) (payload : Inquiry)
    (h1 : env.importOk = true) (h2 : env.dbPresent = true)
    (h3 : env.insertError = none) :
    create_inquiry env payload =
      (Except.ok ⟨toString env.inquiries.length,
        "Inquiry received. Our team will contact you shortly."⟩,
       { env with inquiries := env.inquiries ++ [payload] }) ∧
    (create_inquiry env payload).2.inquiries[env.inquiries.length]? = some payload := by
  obtain ⟨io, dbp, inqs, ie⟩ := env
  subst h1; subst h2; subst h3
  refine ⟨rfl, ?_⟩
  simp [create_inquiry]

/-- C8 witness: a concrete successful submission stores the payload at the
returned id. -/
theorem create_inquiry_success_witness :
    create_inquiry ⟨true, true, [], none⟩
        ⟨"Jo", "jo@example.com", none, none, "Need a quote", none⟩ =
      (Except.ok ⟨"0", "Inquiry received. Our team will contact you shortly."⟩,
       ⟨true, true, [⟨"Jo", "jo@example.com", none, none, "Need a quote", none⟩], none⟩) ∧
    (create_inquiry ⟨true, true, [], none⟩
        ⟨"Jo", "jo@example.com", none, none, "Need a quote", none⟩).2.inquiries[0]? =
      some ⟨"Jo", "jo@example.com", none, none, "Need a quote", none⟩ :=
  create_inquiry_success _ _ rfl rfl rfl

/-- C9: the `/schema` endpoint's entry for `Capability` lists `name` and
`summary` as the required fields and `icon` as a declared but optional
property. -/
theorem get_schema_capability_spec :
    get_schema.find? (fun p => p.1 == "capability") =
      some ("capability", ⟨["name", "summary", "icon"], ["name", "summary"]⟩) ∧
    "icon" ∈ (model_json_schema Capability.fields).properties ∧
    "icon" ∉ (model_json_schema Capability.fields).required := by
  refine ⟨rfl, by decide, by decide⟩

/-- C10 counterexample: on a dict carrying both `"_id"` and `"id"`,
`serialize_doc` overwrites the original `"id"` value, so it is not true
that every key other than `"_id"` keeps its original value. -/
theorem serialize_doc_overwrites_id :
    serialize_doc (PyObj.dict
        [("_id", PyVal.void 1), ("id", PyVal.vstr "keep"), ("x", PyVal.vint 5)]) =
      PyObj.dict [("id", PyVal.vstr "1"), ("x", PyVal.vint 5)] ∧
    dget [("_id", PyVal.void 1), ("id", PyVal.vstr "keep"), ("x", PyVal.vint 5)] "id" =
      some (PyVal.vstr "keep") ∧
    PyVal.vstr "1" ≠ PyVal.vstr "keep" :=
  ⟨rfl, rfl, by decide⟩

/-- C10 (amended): `serialize_doc` returns non-dict inputs unchanged and
dicts without `"_id"` unchanged; when `"_id"` maps to `v`, the result has
no `"_id"` key, maps `"id"` to the string form of `v` (overwriting any
pre-existing `"id"` value), and maps every key other than `"_id"` and
`"id"` to its original value. -/
theorem serialize_doc_spec (d : PyDict) (v : PyVal) (k : String) :
    (∀ w : PyVal, serialize_doc (PyObj.other w) = PyObj.other w) ∧
    (dget d "_id" = none → serialize_doc (PyObj.dict d) = PyObj.dict d) ∧
    (dget d "_id" = some v →
      dget (serialize_dict d) "_id" = none ∧
      dget (serialize_dict d) "id" = some (PyVal.vstr (pyStr v)) ∧
      (k ≠ "_id" → k ≠ "id" → dget (serialize_dict d) k = dget d k)) := by
  refine ⟨fun w => rfl, ?_, ?_⟩
  · intro h
    simp [serialize_doc, serialize_dict, h]
  · intro h
    refine ⟨?_, ?_, ?_⟩
    · simp only [serialize_dict, h]
      rw [dget_dset_ne _ _ _ _ (by decide)]
      exact dget_dpop_self d "_id"
    · simp only [serialize_dict, h]
      exact dget_dset_self _ _ _
    · intro hk1 hk2
      simp only [serialize_dict, h]
      rw [dget_dset_ne _ _ _ _ hk2]
      exact dget_dpop_ne d _ _ hk1

/-- C10 witness: the amended behaviour at a concrete dict. -/
theorem serialize_doc_spec_witness :
    dget (serialize_dict [("_id", PyVal.void 7), ("a", PyVal.vint 3)]) "_id" = none ∧
    dget (serialize_dict [("_id", PyVal.void 7), ("a", PyVal.vint 3)]) "id" =
      some (PyVal.vstr "7") ∧
    dget (serialize_dict [("_id", PyVal.void 7), ("a", PyVal.vint 3)]) "a" =
      dget [("_id", PyVal.void 7), ("a", PyVal.vint 3)] "a" := by
  obtain ⟨-, -, h3⟩ :=
    serialize_doc_spec [("_id", PyVal.void 7), ("a", PyVal.vint 3)] (PyVal.void 7) "a"
  obtain ⟨g1, g2, g3⟩ := h3 rfl
  exact ⟨g1, g2, g3 (by decide) (by decide)⟩

end Backend
